import Mathlib

/-!
Shallow embedding of the availability, pricing and booking engine of the
Hotel-Booking-System repository (FastAPI + SQLModel).

Conventions of the embedding:
* calendar dates are day indices (`Nat`); `d + 1` is the next day;
* monetary amounts are rationals (`Rat`), standing for the float prices of
  the source;
* UUID primary keys are `Nat` identifiers;
* a database session is a record of tables (lists of rows); `session.get`
  becomes `List.find?` on the primary key, a `select ... first()` becomes
  `List.find?` on the filter predicate, `.all()` becomes `List.filter`;
* an endpoint raising `HTTPException` becomes an `Except` value; handlers
  that write return the updated database.

The repository carries two inconsistent BookingStatus enumerations
(`app/utils/enums.py`: PENDING, HOLD, CONFIRMED, CANCELLED, EXPIRED, and
`app/models/booking.py`: pending, confirmed, cancelled, no_show, completed).
The embedding uses one inductive type holding the union of the two member
sets, as the handlers reference members from both.
-/

namespace Hotel

/-- Decidable equality of handler outcomes, so that concrete runs can be
checked by `decide`. -/
instance {ε α : Type} [DecidableEq ε] [DecidableEq α] : DecidableEq (Except ε α)
  | .error a, .error b =>
    if h : a = b then .isTrue (by rw [h]) else .isFalse (by intro c; cases c; exact h rfl)
  | .error _, .ok _ => .isFalse (by intro c; cases c)
  | .ok _, .error _ => .isFalse (by intro c; cases c)
  | .ok a, .ok b =>
    if h : a = b then .isTrue (by rw [h]) else .isFalse (by intro c; cases c; exact h rfl)

/-- Booking status values: union of the two enumerations of the source
(`app/utils/enums.py` and `app/models/booking.py`). -/
inductive BookingStatus where
  | PENDING
  | HOLD
  | CONFIRMED
  | CANCELLED
  | EXPIRED
  | NO_SHOW
  | COMPLETED
deriving DecidableEq, Repr

/-- User roles, from `app/utils/enums.py`. -/
inductive UserRole where
  | SUPER_ADMIN
  | ADMIN
  | STAFF
  | CUSTOMER
deriving DecidableEq, Repr

/-- Model of `app/models/user.py`, restricted to the fields the booking handlers read. -/
structure User where
  id : Nat
  role : UserRole
deriving DecidableEq, Repr

/-- Model of `app/models/property.py`, restricted to the fields the quote handler reads. -/
structure Property where
  id : Nat
  is_active : Bool
deriving DecidableEq, Repr

/-- Model of `app/models/room_type.py`, restricted to the fields the quote handler reads. -/
structure RoomType where
  id : Nat
  property_id : Nat
  is_active : Bool
deriving DecidableEq, Repr

/-- Model of `app/models/rate_plan.py`. All pricing-relevant fields are kept, including
the stay-length and advance-booking constraint fields. -/
structure RatePlan where
  id : Nat
  property_id : Nat
  room_type_id : Nat
  base_price : Rat
  currency : String
  min_days_before_checkin : Option Nat
  max_days_before_checkin : Option Nat
  min_nights : Option Nat
  max_nights : Option Nat
  non_refundable : Bool
deriving DecidableEq, Repr

/-- Model of `app/models/daily_price.py`: a per-date price override for a rate plan. -/
structure DailyPrice where
  rate_plan_id : Nat
  date : Nat
  price : Rat
deriving DecidableEq, Repr

/-- Model of `app/models/inventory.py`: per room type and date, total capacity,
booked count and the sale-closed flag. -/
structure Inventory where
  room_type_id : Nat
  date : Nat
  total_rooms : Nat
  booked_rooms : Nat
  closed_for_sale : Bool
deriving DecidableEq, Repr

/-- Model of `app/models/room.py`, restricted to the fields the booking handlers read. -/
structure Room where
  id : Nat
  property_id : Nat
  price_per_night : Rat
  capacity : Nat
  is_active : Bool
deriving DecidableEq, Repr

/-- Model of `app/models/booking.py`, restricted to the fields the handlers read. -/
structure Booking where
  id : Nat
  user_id : Option Nat
  room_id : Nat
  check_in : Nat
  check_out : Nat
  total_amount : Rat
  status : BookingStatus
deriving DecidableEq, Repr

/-- The database state: one list of rows per table. -/
structure DB where
  properties : List Property
  room_types : List RoomType
  rate_plans : List RatePlan
  daily_prices : List DailyPrice
  inventories : List Inventory
  rooms : List Room
  bookings : List Booking
deriving DecidableEq, Repr

/-- Model of the QuoteRequest schema of `app/schemas/availability.py`. -/
structure QuoteRequest where
  property_id : Nat
  room_type_id : Nat
  rate_plan_id : Nat
  check_in : Nat
  check_out : Nat
  num_rooms : Int
deriving DecidableEq, Repr

/-- Model of the QuoteResponse schema of `app/schemas/availability.py`. -/
structure QuoteResponse where
  available : Bool
  remaining_rooms : Int
  total_price : Rat
  currency : String
deriving DecidableEq, Repr

/-- The `HTTPException` outcomes of the quote endpoint. -/
inductive QuoteError where
  | PropertyNotFound
  | RoomTypeNotFound
  | RatePlanNotFound
  | InvalidDateRange
deriving DecidableEq, Repr

/-- The select on the inventories table in `quote_availability`:
first row matching room type and date. -/
def findInventory (db : DB) (room_type_id day : Nat) : Option Inventory :=
  db.inventories.find? (fun inv => inv.room_type_id == room_type_id && inv.date == day)

/-- The select on the daily_prices table in `quote_availability`:
first override matching rate plan and date. -/
def findDailyPrice (db : DB) (rate_plan_id day : Nat) : Option DailyPrice :=
  db.daily_prices.find? (fun dp => dp.rate_plan_id == rate_plan_id && dp.date == day)

/-- The list of stay nights built in `quote_availability`:
`[payload.check_in + timedelta(days=i) for i in range(nights)]`. -/
def dateRange (check_in check_out : Nat) : List Nat :=
  (List.range (check_out - check_in)).map (fun i => check_in + i)

/-- One update step of the running minimum in the availability loop:
`if min_available is None or available < min_available: min_available = available`. -/
def updMin (acc : Option Int) (available : Int) : Option Int :=
  match acc with
  | none => some available
  | some m => if available < m then some available else some m

/-- The per-night loop of `quote_availability` (src/app/routers/availability.py,
lines 97-112): for each night, a missing inventory row contributes 0, a row
closed for sale short-circuits the whole loop to 0, and an open row contributes
`total_rooms - booked_rooms`; the running minimum is kept in `acc`. -/
def minAvailLoop (db : DB) (room_type_id : Nat) : List Nat → Option Int → Option Int
  | [], acc => acc
  | day :: rest, acc =>
    match findInventory db room_type_id day with
    | some inv =>
      if inv.closed_for_sale then
        some 0
      else
        minAvailLoop db room_type_id rest
          (updMin acc ((inv.total_rooms : Int) - (inv.booked_rooms : Int)))
    | none => minAvailLoop db room_type_id rest (updMin acc 0)

/-- The fallback `available_rooms = min_available if min_available is not None else 0`. -/
def availableRooms (db : DB) (room_type_id check_in check_out : Nat) : Int :=
  (minAvailLoop db room_type_id (dateRange check_in check_out) none).getD 0

/-- The nightly price used by the pricing loop of `quote_availability`:
`daily_override.price if daily_override else rate_plan.base_price`. -/
def priceForNight (db : DB) (rate_plan_id : Nat) (base_price : Rat) (day : Nat) : Rat :=
  match findDailyPrice db rate_plan_id day with
  | some ov => ov.price
  | none => base_price

/-- The pricing loop of `quote_availability` (lines 118-126):
`total_price += nightly_price * payload.num_rooms` over the stay nights,
starting from 0. -/
def quoteTotalPrice (db : DB) (rate_plan_id : Nat) (base_price : Rat)
    (dates : List Nat) (num_rooms : Int) : Rat :=
  dates.foldl (fun acc day => acc + priceForNight db rate_plan_id base_price day * (num_rooms : Rat)) 0

/-- Handler `quote_availability` (src/app/routers/availability.py, lines 50-133).
Validation order follows the source: property lookup, room-type lookup,
rate-plan lookup, then the date-order check; then the inventory minimum,
then the pricing loop. The handler performs no writes, so the embedding
returns only the response. -/
def quote_availability (db : DB) (payload : QuoteRequest) : Except QuoteError QuoteResponse :=
  match db.properties.find? (fun p => p.id == payload.property_id) with
  | none => .error .PropertyNotFound
  | some prop =>
    if !prop.is_active then .error .PropertyNotFound
    else
      match db.room_types.find? (fun rt => rt.id == payload.room_type_id) with
      | none => .error .RoomTypeNotFound
      | some room_type =>
        if room_type.property_id != payload.property_id || !room_type.is_active then
          .error .RoomTypeNotFound
        else
          match db.rate_plans.find? (fun rp => rp.id == payload.rate_plan_id) with
          | none => .error .RatePlanNotFound
          | some rate_plan =>
            if rate_plan.property_id != payload.property_id
                || rate_plan.room_type_id != payload.room_type_id then
              .error .RatePlanNotFound
            else if payload.check_out ≤ payload.check_in then
              .error .InvalidDateRange
            else if availableRooms db payload.room_type_id payload.check_in payload.check_out
                < payload.num_rooms then
              .ok { available := false
                    remaining_rooms :=
                      availableRooms db payload.room_type_id payload.check_in payload.check_out
                    total_price := 0
                    currency := rate_plan.currency }
            else
              .ok { available := true
                    remaining_rooms :=
                      availableRooms db payload.room_type_id payload.check_in payload.check_out
                        - payload.num_rooms
                    total_price :=
                      quoteTotalPrice db payload.rate_plan_id rate_plan.base_price
                        (dateRange payload.check_in payload.check_out) payload.num_rooms
                    currency := rate_plan.currency }

/-- Predicate `room_available` (src/app/services/booking_service.py, lines 8-15):
true iff no booking on the room with status CONFIRMED or COMPLETED satisfies
`check_in <= check_out and check_out >= check_in` (non-strict comparisons
against the requested range, as written in the source). -/
def room_available (db : DB) (room_id check_in check_out : Nat) : Bool :=
  (db.bookings.find? (fun b =>
    b.room_id == room_id
    && (b.status == BookingStatus.CONFIRMED || b.status == BookingStatus.COMPLETED)
    && decide (b.check_in ≤ check_out)
    && decide (b.check_out ≥ check_in))).isNone

/-- The filter of the conflicting-bookings query inside `create_guest_booking`
(src/app/routers/bookings.py, lines 82-97): same room, status CONFIRMED,
and strict half-open overlap `check_in < req.check_out and check_out > req.check_in`. -/
def guestConflictPred (room_id check_in check_out : Nat) (b : Booking) : Bool :=
  b.room_id == room_id
  && b.status == BookingStatus.CONFIRMED
  && decide (b.check_in < check_out)
  && decide (b.check_out > check_in)

/-- The `.all()` of the conflicting-bookings query inside `create_guest_booking`. -/
def guestConflicts (db : DB) (room_id check_in check_out : Nat) : List Booking :=
  db.bookings.filter (guestConflictPred room_id check_in check_out)

/-- Modelled from the spec: `app/services/pricing_service.py` is absent from
src (only its caller `create_guest_booking` remains). Per spec section 4.2 the
total is the per-night price summed over the nights of `[check_in, check_out)`,
with seasonal multipliers that are deterministic functions of the date; the
spec fixes no multiplier table, so the multiplier is taken as 1 and the total
is `nights * price_per_night`. -/
def guestTotalPrice (room : Room) (nights : Nat) : Rat :=
  (nights : Rat) * room.price_per_night

/-- The `HTTPException` outcomes of `create_guest_booking`. -/
inductive GuestError where
  | InvalidDateRange
  | RoomNotFound
  | CapacityExceeded
  | RoomNotAvailable
deriving DecidableEq, Repr

/-- Model of `GuestBookingRequest` (src/app/routers/bookings.py, lines 35-43),
restricted to the fields the handler logic reads. -/
structure GuestBookingRequest where
  room_id : Nat
  check_in : Nat
  check_out : Nat
  guests : Nat
deriving DecidableEq, Repr

/-- Handler `create_guest_booking` (src/app/routers/bookings.py, lines 44-167).
Order follows the source: date-order check, past-date check (against `today`),
room lookup and active check, capacity check, conflicting-bookings query,
then pricing and insertion of a PENDING booking. The email dispatch has no
effect on the database and is omitted; `new_id` stands for the uuid4 primary
key generated for the new row. -/
def create_guest_booking (db : DB) (today : Nat) (req : GuestBookingRequest)
    (new_id : Nat) : Except GuestError (DB × Booking) :=
  if req.check_in ≥ req.check_out then .error .InvalidDateRange
  else if req.check_in < today then .error .InvalidDateRange
  else
    match db.rooms.find? (fun r => r.id == req.room_id) with
    | none => .error .RoomNotFound
    | some room =>
      if !room.is_active then .error .RoomNotFound
      else if req.guests > room.capacity then .error .CapacityExceeded
      else if !(guestConflicts db req.room_id req.check_in req.check_out).isEmpty then
        .error .RoomNotAvailable
      else
        let nights := req.check_out - req.check_in
        let booking : Booking :=
          { id := new_id
            user_id := none
            room_id := req.room_id
            check_in := req.check_in
            check_out := req.check_out
            total_amount := guestTotalPrice room nights
            status := BookingStatus.PENDING }
        .ok ({ db with bookings := db.bookings ++ [booking] }, booking)

/-- Modelled from the spec: `app/utils/helpers.py` is absent from src (only
its importer `booking_service.py` remains). Per the data model of spec
section 3 and the pricing rule of section 4.2, the number of nights of a
stay is the number of dates in `[check_in, check_out)`, i.e. the signed
difference of the two dates. -/
def nights_between (check_in check_out : Nat) : Int :=
  (check_out : Int) - (check_in : Int)

/-- Function `compute_total` (src/app/services/booking_service.py, lines 17-21):
raises ValueError on a non-positive night count, else
`nights * room.price_per_night`. -/
def compute_total (room : Room) (check_in check_out : Nat) : Option Rat :=
  let nights := nights_between check_in check_out
  if nights ≤ 0 then none
  else some ((nights : Rat) * room.price_per_night)

/-- The `HTTPException` outcomes of the authenticated booking handlers; an
uncaught exception inside a handler is `Internal`. -/
inductive ApiError where
  | NotFound
  | Forbidden
  | BadRequest
  | Internal
deriving DecidableEq, Repr

/-- The payload fields of `BookingCreate` that `create_booking` reads
(`payload.room_id`, `payload.check_in`, `payload.check_out`). The Pydantic
schema in `app/schemas/booking.py` in fact declares no `room_id` field; the
embedding follows the handler body, which reads one. -/
structure BookingCreatePayload where
  room_id : Nat
  check_in : Nat
  check_out : Nat
deriving DecidableEq, Repr

/-- Handler `create_booking` (src/app/routers/bookings.py, lines 205-233): room
lookup and active check, `room_available` check, `compute_total`, then
insertion of a CONFIRMED booking owned by the current user. The handler
never reads or writes the inventories table. -/
def create_booking (db : DB) (current : User) (payload : BookingCreatePayload)
    (new_id : Nat) : Except ApiError (DB × Booking) :=
  match db.rooms.find? (fun r => r.id == payload.room_id) with
  | none => .error .NotFound
  | some room =>
    if !room.is_active then .error .NotFound
    else if !room_available db room.id payload.check_in payload.check_out then
      .error .BadRequest
    else
      match compute_total room payload.check_in payload.check_out with
      | none => .error .Internal
      | some total =>
        let booking : Booking :=
          { id := new_id
            user_id := some current.id
            room_id := room.id
            check_in := payload.check_in
            check_out := payload.check_out
            total_amount := total
            status := BookingStatus.CONFIRMED }
        .ok ({ db with bookings := db.bookings ++ [booking] }, booking)

/-- The role test used by the booking handlers:
`current.role in (UserRole.ADMIN, UserRole.SUPER_ADMIN, UserRole.STAFF)`. -/
def isStaffOrAdmin (role : UserRole) : Bool :=
  role == UserRole.ADMIN || role == UserRole.SUPER_ADMIN || role == UserRole.STAFF

/-- The owner-or-staff authorization test of the booking handlers. -/
def mayTouchBooking (booking : Booking) (current : User) : Bool :=
  booking.user_id == some current.id || isStaffOrAdmin current.role

/-- Model of `BookingUpdate` (src/app/schemas/booking.py), restricted to the fields
`update_booking` reads; `none` stands for a field absent from
`model_dump(exclude_unset=True)`. -/
structure BookingUpdate where
  check_in : Option Nat
  check_out : Option Nat
  status : Option BookingStatus
deriving DecidableEq, Repr

/-- The status values `update_booking` accepts:
`(BookingStatus.PENDING, BookingStatus.CONFIRMED, BookingStatus.CANCELLED,
BookingStatus.COMPLETED)`. -/
def allowedUpdateStatus (s : BookingStatus) : Bool :=
  s == BookingStatus.PENDING || s == BookingStatus.CONFIRMED
    || s == BookingStatus.CANCELLED || s == BookingStatus.COMPLETED

/-- Replace the row of the given booking id in the bookings table. -/
def replaceBooking (db : DB) (booking_id : Nat) (b : Booking) : DB :=
  { db with bookings := db.bookings.map (fun x => if x.id == booking_id then b else x) }

/-- Handler `update_booking` (src/app/routers/bookings.py, lines 236-311): lookup,
authorization, optional status update (any of the four allowed values is
accepted whatever the current status), then the optional date change with
its order check, `room_available` re-check and price recomputation. The
session autoflushes the pending status change before the availability query,
so that query runs against the database with the status already updated. -/
def update_booking (db : DB) (booking_id : Nat) (payload : BookingUpdate)
    (current : User) : Except ApiError DB :=
  match db.bookings.find? (fun b => b.id == booking_id) with
  | none => .error .NotFound
  | some booking =>
    if !mayTouchBooking booking current then .error .Forbidden
    else
      let statusStep : Except ApiError Booking :=
        match payload.status with
        | none => .ok booking
        | some s =>
          if !allowedUpdateStatus s then .error .BadRequest
          else .ok { booking with status := s }
      match statusStep with
      | .error e => .error e
      | .ok b1 =>
        let new_check_in := payload.check_in.getD booking.check_in
        let new_check_out := payload.check_out.getD booking.check_out
        if new_check_in ≠ booking.check_in ∨ new_check_out ≠ booking.check_out then
          if new_check_in ≥ new_check_out then .error .BadRequest
          else if !room_available (replaceBooking db booking_id b1)
                    booking.room_id new_check_in new_check_out then
            .error .BadRequest
          else
            match db.rooms.find? (fun r => r.id == booking.room_id) with
            | none => .error .Internal
            | some room =>
              match compute_total room new_check_in new_check_out with
              | none => .error .Internal
              | some total =>
                .ok (replaceBooking db booking_id
                  { b1 with check_in := new_check_in, check_out := new_check_out,
                            total_amount := total })
        else
          .ok (replaceBooking db booking_id b1)

/-- Handler `cancel_booking` (src/app/routers/bookings.py, lines 314-336): lookup,
authorization, then the status is set to CANCELLED unconditionally — the
current status is never inspected, no inventory is released and no
cancellation reason is recorded. -/
def cancel_booking (db : DB) (booking_id : Nat) (current : User) : Except ApiError DB :=
  match db.bookings.find? (fun b => b.id == booking_id) with
  | none => .error .NotFound
  | some booking =>
    if !mayTouchBooking booking current then .error .Forbidden
    else .ok (replaceBooking db booking_id { booking with status := BookingStatus.CANCELLED })

/-- Spec-side definition (for comparison with the code): the per-night
availability of claim C1 — a night with no inventory row or a row closed
for sale contributes 0, any other night contributes
`total_rooms - booked_rooms`. -/
def specNightAvail (db : DB) (room_type_id day : Nat) : Int :=
  match findInventory db room_type_id day with
  | none => 0
  | some inv =>
    if inv.closed_for_sale then 0
    else (inv.total_rooms : Int) - (inv.booked_rooms : Int)

/-- Spec-side definition: the minimum of the per-night availabilities over a
list of nights (0 for an empty list). -/
def specMinAvail (db : DB) (room_type_id : Nat) : List Nat → Int
  | [] => 0
  | day :: rest =>
    rest.foldl (fun m d => min m (specNightAvail db room_type_id d))
      (specNightAvail db room_type_id day)

/-- Spec-side definition: the total price of claim C3 — the sum over the
nights of the stay of the nightly price times the room count. -/
def specTotalPrice (db : DB) (rate_plan_id : Nat) (base_price : Rat)
    (dates : List Nat) (num_rooms : Int) : Rat :=
  (dates.map (fun day => priceForNight db rate_plan_id base_price day * (num_rooms : Rat))).sum

/-- Spec-side relation for claim C10: two rate plans that agree on every
field except possibly `min_nights`, `max_nights`, `min_days_before_checkin`
and `max_days_before_checkin`. -/
def rpAgreesOutsideStay (rp1 rp2 : RatePlan) : Prop :=
  rp1.id = rp2.id ∧ rp1.property_id = rp2.property_id
    ∧ rp1.room_type_id = rp2.room_type_id ∧ rp1.base_price = rp2.base_price
    ∧ rp1.currency = rp2.currency ∧ rp1.non_refundable = rp2.non_refundable

/-! Concrete fixtures used by counterexamples and witnesses. -/

/-- An active property. -/
def prop1 : Property := { id := 1, is_active := true }

/-- An active room type of `prop1`. -/
def roomType1 : RoomType := { id := 2, property_id := 1, is_active := true }

/-- A rate plan of `roomType1` with base price 100. -/
def ratePlan1 : RatePlan :=
  { id := 3, property_id := 1, room_type_id := 2, base_price := 100,
    currency := "VND", min_days_before_checkin := none, max_days_before_checkin := none,
    min_nights := none, max_nights := none, non_refundable := false }

/-- An active room priced 100 per night. -/
def room5 : Room :=
  { id := 5, property_id := 1, price_per_night := 100, capacity := 2, is_active := true }

/-- A customer. -/
def alice : User := { id := 7, role := UserRole.CUSTOMER }

/-- Another customer. -/
def bob : User := { id := 8, role := UserRole.CUSTOMER }

/-- A quote state whose night 10 is closed for sale and whose night 11 is
overbooked (total 0, booked 1). -/
def dbClosedThenOverbooked : DB :=
  { properties := [prop1], room_types := [roomType1], rate_plans := [ratePlan1],
    daily_prices := [],
    inventories :=
      [ { room_type_id := 2, date := 10, total_rooms := 5, booked_rooms := 0,
          closed_for_sale := true },
        { room_type_id := 2, date := 11, total_rooms := 0, booked_rooms := 1,
          closed_for_sale := false } ],
    rooms := [], bookings := [] }

/-- A two-night quote request over nights 10 and 11 for one room. -/
def reqNights10and11 : QuoteRequest :=
  { property_id := 1, room_type_id := 2, rate_plan_id := 3,
    check_in := 10, check_out := 12, num_rooms := 1 }

/-- A quote state with open inventory on nights 24 and 25 and a daily price
override of 150 on night 25 (base price 100). -/
def dbOverride25 : DB :=
  { properties := [prop1], room_types := [roomType1], rate_plans := [ratePlan1],
    daily_prices := [ { rate_plan_id := 3, date := 25, price := 150 } ],
    inventories :=
      [ { room_type_id := 2, date := 24, total_rooms := 5, booked_rooms := 3,
          closed_for_sale := false },
        { room_type_id := 2, date := 25, total_rooms := 5, booked_rooms := 3,
          closed_for_sale := false } ],
    rooms := [], bookings := [] }

/-- A two-night quote request over nights 24 and 25 for one room. -/
def reqNights24and25 : QuoteRequest :=
  { property_id := 1, room_type_id := 2, rate_plan_id := 3,
    check_in := 24, check_out := 26, num_rooms := 1 }

/-- A quote state whose single relevant night 10 is overbooked:
total 1, booked 2, open for sale. -/
def dbOverbooked : DB :=
  { properties := [prop1], room_types := [roomType1], rate_plans := [ratePlan1],
    daily_prices := [],
    inventories :=
      [ { room_type_id := 2, date := 10, total_rooms := 1, booked_rooms := 2,
          closed_for_sale := false } ],
    rooms := [], bookings := [] }

/-- A one-night quote request for night 10 for one room. -/
def reqNight10 : QuoteRequest :=
  { property_id := 1, room_type_id := 2, rate_plan_id := 3,
    check_in := 10, check_out := 11, num_rooms := 1 }

/-- A CONFIRMED booking of room 5 for nights 1 and 2 (check-out day 3). -/
def bookingConfirmed13 : Booking :=
  { id := 1, user_id := some 7, room_id := 5, check_in := 1, check_out := 3,
    total_amount := 200, status := BookingStatus.CONFIRMED }

/-- A state holding only `bookingConfirmed13`. -/
def dbConfirmed13 : DB :=
  { properties := [], room_types := [], rate_plans := [], daily_prices := [],
    inventories := [], rooms := [], bookings := [bookingConfirmed13] }

/-- A PENDING booking of room 5 for nights 1 and 2 (check-out day 3). -/
def bookingPending13 : Booking :=
  { id := 1, user_id := some 7, room_id := 5, check_in := 1, check_out := 3,
    total_amount := 200, status := BookingStatus.PENDING }

/-- A state holding only `bookingPending13`. -/
def dbPending13 : DB :=
  { properties := [], room_types := [], rate_plans := [], daily_prices := [],
    inventories := [], rooms := [], bookings := [bookingPending13] }

/-- A CANCELLED booking of room 5 owned by `alice`. -/
def bookingCancelled13 : Booking :=
  { id := 1, user_id := some 7, room_id := 5, check_in := 1, check_out := 3,
    total_amount := 200, status := BookingStatus.CANCELLED }

/-- A state holding only `bookingCancelled13`. -/
def dbCancelled13 : DB :=
  { properties := [], room_types := [], rate_plans := [], daily_prices := [],
    inventories := [], rooms := [], bookings := [bookingCancelled13] }

/-- A bookable state: active room 5 and one open inventory night with
total 1, booked 0 — the last room for night 10. -/
def dbLastRoom : DB :=
  { properties := [prop1], room_types := [roomType1], rate_plans := [ratePlan1],
    daily_prices := [],
    inventories :=
      [ { room_type_id := 2, date := 10, total_rooms := 1, booked_rooms := 0,
          closed_for_sale := false } ],
    rooms := [room5], bookings := [] }

/-- The booking-creation payload for room 5, night 10. -/
def payloadRoom5Night10 : BookingCreatePayload :=
  { room_id := 5, check_in := 10, check_out := 11 }

/-- The empty database. -/
def dbEmpty : DB :=
  { properties := [], room_types := [], rate_plans := [], daily_prices := [],
    inventories := [], rooms := [], bookings := [] }

/-- The booking produced by a successful `create_booking` of room 5,
night 10, by `alice`. -/
def bookingCreated : Booking :=
  { id := 1, user_id := some 7, room_id := 5, check_in := 10, check_out := 11,
    total_amount := 100, status := BookingStatus.CONFIRMED }

/-- State `dbLastRoom` after the successful creation of `bookingCreated`. -/
def dbAfterCreate : DB := { dbLastRoom with bookings := [bookingCreated] }

/-- State `dbAfterCreate` after cancelling `bookingCreated`. -/
def dbAfterCancel : DB :=
  { dbLastRoom with bookings := [{ bookingCreated with status := BookingStatus.CANCELLED }] }

/-- A quote request whose check-out precedes its check-in. -/
def reqBadDates : QuoteRequest :=
  { property_id := 1, room_type_id := 2, rate_plan_id := 3,
    check_in := 12, check_out := 10, num_rooms := 1 }

/-- Copy of `ratePlan1` with all four stay-constraint fields altered. -/
def ratePlan1Stay99 : RatePlan :=
  { ratePlan1 with
      min_nights := some 99
      max_nights := some 99
      min_days_before_checkin := some 99
      max_days_before_checkin := some 99 }

/-! Helper lemmas about the availability minimum loop. -/

theorem updMin_some (a v : Int) : updMin (some a) v = some (min a v) := by
  simp only [updMin]
  rcases lt_or_le v a with h | h
  · rw [if_pos h, min_eq_right h.le]
  · rw [if_neg (not_lt.mpr h), min_eq_left h]

theorem foldl_min_le_init (f : Nat → Int) (l : List Nat) (a : Int) :
    l.foldl (fun m d => min m (f d)) a ≤ a := by
  induction l generalizing a with
  | nil => simp
  | cons d rest ih =>
    rw [List.foldl_cons]
    exact le_trans (ih (min a (f d))) (min_le_left _ _)

theorem foldl_min_nonneg (f : Nat → Int) (l : List Nat) (a : Int) (ha : 0 ≤ a)
    (hl : ∀ d ∈ l, 0 ≤ f d) :
    0 ≤ l.foldl (fun m d => min m (f d)) a := by
  induction l generalizing a with
  | nil => simpa
  | cons d rest ih =>
    rw [List.foldl_cons]
    exact ih _ (le_min ha (hl d (List.mem_cons_self d rest)))
      (fun x hx => hl x (List.mem_cons_of_mem _ hx))

theorem foldl_min_zero (f : Nat → Int) (l : List Nat)
    (hl : ∀ d ∈ l, 0 ≤ f d) :
    l.foldl (fun m d => min m (f d)) 0 = 0 :=
  le_antisymm (foldl_min_le_init f l 0) (foldl_min_nonneg f l 0 le_rfl hl)

/-- If every night of the range has non-negative per-night availability, the
short-circuiting loop of the source computes exactly the spec minimum. -/
theorem minAvailLoop_some_eq (db : DB) (rt : Nat) (l : List Nat) (a : Int) (ha : 0 ≤ a)
    (hl : ∀ d ∈ l, 0 ≤ specNightAvail db rt d) :
    minAvailLoop db rt l (some a) =
      some (l.foldl (fun m d => min m (specNightAvail db rt d)) a) := by
  induction l generalizing a with
  | nil => simp [minAvailLoop]
  | cons d rest ih =>
    have hd : 0 ≤ specNightAvail db rt d := hl d (List.mem_cons_self d rest)
    have hrest : ∀ x ∈ rest, 0 ≤ specNightAvail db rt x :=
      fun x hx => hl x (List.mem_cons_of_mem _ hx)
    rw [List.foldl_cons]
    cases hfind : findInventory db rt d with
    | none =>
      have hav : specNightAvail db rt d = 0 := by simp [specNightAvail, hfind]
      simp only [minAvailLoop, hfind, updMin_some]
      rw [← hav, ih _ (le_min ha hd) hrest]
    | some inv =>
      by_cases hc : inv.closed_for_sale
      · have hav : specNightAvail db rt d = 0 := by simp [specNightAvail, hfind, hc]
        simp only [minAvailLoop, hfind, if_pos hc]
        rw [hav, min_eq_right ha, foldl_min_zero _ _ hrest]
      · have hav : specNightAvail db rt d
            = (inv.total_rooms : Int) - (inv.booked_rooms : Int) := by
          simp [specNightAvail, hfind, hc]
        simp only [minAvailLoop, hfind, if_neg hc, updMin_some]
        rw [ih _ (le_min ha (hav ▸ hd)) hrest, hav]

/-- The availability loop started with no accumulator, on a non-empty range of
nights all of non-negative per-night availability, returns the spec minimum. -/
theorem minAvailLoop_none_eq (db : DB) (rt : Nat) (l : List Nat) (hne : l ≠ [])
    (hl : ∀ x ∈ l, 0 ≤ specNightAvail db rt x) :
    minAvailLoop db rt l none = some (specMinAvail db rt l) := by
  cases l with
  | nil => exact absurd rfl hne
  | cons d rest =>
    have hd : 0 ≤ specNightAvail db rt d := hl d (List.mem_cons_self d rest)
    have hrest : ∀ x ∈ rest, 0 ≤ specNightAvail db rt x :=
      fun x hx => hl x (List.mem_cons_of_mem _ hx)
    cases hfind : findInventory db rt d with
    | none =>
      have hav : specNightAvail db rt d = 0 := by simp [specNightAvail, hfind]
      simp only [minAvailLoop, hfind, updMin, specMinAvail]
      rw [minAvailLoop_some_eq db rt rest 0 le_rfl hrest, hav]
    | some inv =>
      by_cases hc : inv.closed_for_sale
      · have hav : specNightAvail db rt d = 0 := by simp [specNightAvail, hfind, hc]
        simp only [minAvailLoop, hfind, if_pos hc, specMinAvail]
        rw [hav, foldl_min_zero _ _ hrest]
      · have hav : specNightAvail db rt d
            = (inv.total_rooms : Int) - (inv.booked_rooms : Int) := by
          simp [specNightAvail, hfind, hc]
        simp only [minAvailLoop, hfind, if_neg hc, updMin, specMinAvail]
        rw [minAvailLoop_some_eq db rt rest _ (hav ▸ hd) hrest, hav]

theorem dateRange_ne_nil (check_in check_out : Nat) (h : check_in < check_out) :
    dateRange check_in check_out ≠ [] := by
  simp only [dateRange, ne_eq, List.map_eq_nil_iff, List.range_eq_nil]
  omega

theorem foldl_add_eq_sum (f : Nat → Rat) (l : List Nat) (a : Rat) :
    l.foldl (fun acc d => acc + f d) a = a + (l.map f).sum := by
  induction l generalizing a with
  | nil => simp
  | cons d rest ih => rw [List.foldl_cons, List.map_cons, List.sum_cons, ih, add_assoc]

/-- The pricing loop of the source computes the sum of the spec. -/
theorem quoteTotalPrice_eq_specTotalPrice (db : DB) (rate_plan_id : Nat)
    (base_price : Rat) (dates : List Nat) (num_rooms : Int) :
    quoteTotalPrice db rate_plan_id base_price dates num_rooms
      = specTotalPrice db rate_plan_id base_price dates num_rooms := by
  unfold quoteTotalPrice specTotalPrice
  rw [foldl_add_eq_sum]
  simp

/-- C1 counterexample: in `dbClosedThenOverbooked`, night 10 is closed for
sale and night 11 has availability `0 - 1 = -1`, so the minimum of the
per-night availabilities demanded by the claim is -1; but the short-circuit
of the source stops at the closed night and the quote reports
`remaining_rooms = 0`, not -1. -/
theorem C1_counterexample :
    quote_availability dbClosedThenOverbooked reqNights10and11
        = .ok { available := false, remaining_rooms := 0, total_price := 0, currency := "VND" }
      ∧ specMinAvail dbClosedThenOverbooked 2 (dateRange 10 12) = -1
      ∧ (0 : Int) ≠ -1 := by
  refine ⟨by decide, by decide, by decide⟩

/-- C1 (amended): for every state whose inventory rows on the nights of the
stay satisfy `booked_rooms ≤ total_rooms`, and every quote request passing
referential validation with `check_out > check_in`, the quote returns
`available=false, remaining_rooms=m, total_price=0` when `m < num_rooms`
and otherwise `available=true, remaining_rooms = m - num_rooms` with the
total price of the pricing rule and the currency of the rate plan, where
`m` is the minimum of the per-night availabilities (0 for a missing or
closed night, `total_rooms - booked_rooms` otherwise). The handler performs
no writes, so the state is unchanged by construction. -/
theorem C1_quote_minimum (db : DB) (payload : QuoteRequest)
    (prop : Property) (room_type : RoomType) (rate_plan : RatePlan)
    (hp : db.properties.find? (fun p => p.id == payload.property_id) = some prop)
    (hpa : prop.is_active = true)
    (hrt : db.room_types.find? (fun rt => rt.id == payload.room_type_id) = some room_type)
    (hrtp : room_type.property_id = payload.property_id)
    (hrta : room_type.is_active = true)
    (hrp : db.rate_plans.find? (fun rp => rp.id == payload.rate_plan_id) = some rate_plan)
    (hrpp : rate_plan.property_id = payload.property_id)
    (hrpr : rate_plan.room_type_id = payload.room_type_id)
    (hdate : payload.check_in < payload.check_out)
    (hinv : ∀ d ∈ dateRange payload.check_in payload.check_out,
        0 ≤ specNightAvail db payload.room_type_id d) :
    quote_availability db payload =
      (if specMinAvail db payload.room_type_id (dateRange payload.check_in payload.check_out)
            < payload.num_rooms then
        .ok { available := false,
              remaining_rooms :=
                specMinAvail db payload.room_type_id (dateRange payload.check_in payload.check_out),
              total_price := 0, currency := rate_plan.currency }
      else
        .ok { available := true,
              remaining_rooms :=
                specMinAvail db payload.room_type_id (dateRange payload.check_in payload.check_out)
                  - payload.num_rooms,
              total_price :=
                specTotalPrice db payload.rate_plan_id rate_plan.base_price
                  (dateRange payload.check_in payload.check_out) payload.num_rooms,
              currency := rate_plan.currency }) := by
  have hm : availableRooms db payload.room_type_id payload.check_in payload.check_out
      = specMinAvail db payload.room_type_id (dateRange payload.check_in payload.check_out) := by
    unfold availableRooms
    rw [minAvailLoop_none_eq db payload.room_type_id _ (dateRange_ne_nil _ _ hdate) hinv]
    rfl
  have hle : ¬ payload.check_out ≤ payload.check_in := by omega
  unfold quote_availability
  simp only [hp, hrt, hrp]
  simp [hpa, hrtp, hrta, hrpp, hrpr, hle]
  rw [hm, quoteTotalPrice_eq_specTotalPrice]

/-- C1 witness: the amended theorem applied to the Scenario A state
(night 10 with total 5, booked 3, quote for two rooms). -/
theorem C1_witness :
    quote_availability dbOverride25 reqNights24and25
      = (if specMinAvail dbOverride25 2 (dateRange 24 26) < 1 then
          .ok { available := false,
                remaining_rooms := specMinAvail dbOverride25 2 (dateRange 24 26),
                total_price := 0, currency := "VND" }
        else
          .ok { available := true,
                remaining_rooms := specMinAvail dbOverride25 2 (dateRange 24 26) - 1,
                total_price := specTotalPrice dbOverride25 3 100 (dateRange 24 26) 1,
                currency := "VND" }) :=
  C1_quote_minimum dbOverride25 reqNights24and25 prop1 roomType1 ratePlan1
    (by decide) (by decide) (by decide) (by decide) (by decide)
    (by decide) (by decide) (by decide) (by decide) (by decide)

/-- C4 counterexample: Scenario D fails on the code. `bookingConfirmed13`
checks out of room 5 on day 3, yet `room_available` reports the room NOT
free for a new request with check-in day 3, because its comparisons are
non-strict (closed intervals). -/
theorem C4_counterexample :
    bookingConfirmed13.check_out = 3
      ∧ room_available dbConfirmed13 5 3 5 = false := by
  exact ⟨by decide, by decide⟩

/-- C4 (amended): the inline conflict check of guest booking creation does
use half-open overlap, so adjacent ranges never conflict there; but
`room_available` compares with `≤`/`≥`, so a CONFIRMED or COMPLETED booking
with check-out day `d` blocks any request with check-in day `d` — adjacent
ranges DO overlap for `room_available` and Scenario D reports the room busy. -/
theorem C4_overlap_semantics :
    (∀ (db : DB) (room_id check_out_req : Nat) (b : Booking),
        b ∈ db.bookings → b.room_id = room_id →
        (b.status = BookingStatus.CONFIRMED ∨ b.status = BookingStatus.COMPLETED) →
        b.check_in ≤ check_out_req →
          room_available db room_id b.check_out check_out_req = false)
    ∧ (∀ (room_id check_in check_out : Nat) (b : Booking),
        b.check_out = check_in →
          guestConflictPred room_id check_in check_out b = false) := by
  constructor
  · intro db room_id check_out_req b hb hroom hst hin
    unfold room_available
    have hp : (b.room_id == room_id
        && (b.status == BookingStatus.CONFIRMED || b.status == BookingStatus.COMPLETED)
        && decide (b.check_in ≤ check_out_req)
        && decide (b.check_out ≥ b.check_out)) = true := by
      rcases hst with h | h <;> simp [hroom, h, hin]
    cases hfind : db.bookings.find? (fun x => x.room_id == room_id
        && (x.status == BookingStatus.CONFIRMED || x.status == BookingStatus.COMPLETED)
        && decide (x.check_in ≤ check_out_req)
        && decide (x.check_out ≥ b.check_out)) with
    | none => exact absurd hp (by simpa using List.find?_eq_none.mp hfind b hb)
    | some c => rfl
  · intro room_id check_in check_out b hadj
    unfold guestConflictPred
    simp [hadj]

/-- C4 witness: the amended theorem applied to `bookingConfirmed13` in
`dbConfirmed13` with an adjacent request for days 3 and 4. -/
theorem C4_witness :
    room_available dbConfirmed13 5 bookingConfirmed13.check_out 5 = false
      ∧ guestConflictPred 5 3 5 bookingConfirmed13 = false :=
  ⟨C4_overlap_semantics.1 dbConfirmed13 5 5 bookingConfirmed13
      (by decide) (by decide) (by decide) (by decide),
    C4_overlap_semantics.2 5 3 5 bookingConfirmed13 (by decide)⟩

/-- C5 counterexample: an overlapping PENDING booking does not block the
room — `room_available` reports it free and the guest conflict query is
empty, where the claim demands rejection for PENDING and HOLD. -/
theorem C5_counterexample :
    bookingPending13.status = BookingStatus.PENDING
      ∧ room_available dbPending13 5 1 3 = true
      ∧ guestConflicts dbPending13 5 1 3 = [] := by
  exact ⟨by decide, by decide, by decide⟩

/-- C5 (amended): `room_available` reports the room busy exactly when some
booking on the room in status CONFIRMED or COMPLETED satisfies its
non-strict overlap test, and the guest-booking conflict query is non-empty
exactly when some CONFIRMED booking on the room strictly overlaps; bookings
in PENDING, HOLD, CANCELLED, EXPIRED and NO_SHOW never block either check. -/
theorem C5_blocking_statuses :
    (∀ (db : DB) (room_id check_in check_out : Nat),
      room_available db room_id check_in check_out = false ↔
        ∃ b ∈ db.bookings, b.room_id = room_id
          ∧ (b.status = BookingStatus.CONFIRMED ∨ b.status = BookingStatus.COMPLETED)
          ∧ b.check_in ≤ check_out ∧ check_in ≤ b.check_out)
    ∧ (∀ (db : DB) (room_id check_in check_out : Nat),
      guestConflicts db room_id check_in check_out ≠ [] ↔
        ∃ b ∈ db.bookings, b.room_id = room_id
          ∧ b.status = BookingStatus.CONFIRMED
          ∧ b.check_in < check_out ∧ check_in < b.check_out) := by
  constructor
  · intro db room_id check_in check_out
    unfold room_available
    constructor
    · intro h
      cases hfind : db.bookings.find? (fun x => x.room_id == room_id
          && (x.status == BookingStatus.CONFIRMED || x.status == BookingStatus.COMPLETED)
          && decide (x.check_in ≤ check_out)
          && decide (x.check_out ≥ check_in)) with
      | none => rw [hfind] at h; cases h
      | some c =>
        have hc := List.find?_some hfind
        have hmem := List.mem_of_find?_eq_some hfind
        refine ⟨c, hmem, ?_⟩
        simp only [Bool.and_eq_true, beq_iff_eq, Bool.or_eq_true, decide_eq_true_eq] at hc
        exact ⟨hc.1.1.1, hc.1.1.2, hc.1.2, hc.2⟩
    · rintro ⟨b, hb, hroom, hst, h1, h2⟩
      have hp : (b.room_id == room_id
          && (b.status == BookingStatus.CONFIRMED || b.status == BookingStatus.COMPLETED)
          && decide (b.check_in ≤ check_out)
          && decide (b.check_out ≥ check_in)) = true := by
        rcases hst with h | h <;> simp [hroom, h, h1, h2]
      cases hfind : db.bookings.find? (fun x => x.room_id == room_id
          && (x.status == BookingStatus.CONFIRMED || x.status == BookingStatus.COMPLETED)
          && decide (x.check_in ≤ check_out)
          && decide (x.check_out ≥ check_in)) with
      | none => exact absurd hp (by simpa using List.find?_eq_none.mp hfind b hb)
      | some c => rfl
  · intro db room_id check_in check_out
    unfold guestConflicts
    constructor
    · intro h
      rcases List.exists_mem_of_ne_nil _ h with ⟨b, hb⟩
      rw [List.mem_filter] at hb
      refine ⟨b, hb.1, ?_⟩
      have hc := hb.2
      unfold guestConflictPred at hc
      simp only [Bool.and_eq_true, beq_iff_eq, decide_eq_true_eq] at hc
      exact ⟨hc.1.1.1, hc.1.1.2, hc.1.2, hc.2⟩
    · rintro ⟨b, hb, hroom, hst, h1, h2⟩
      intro hnil
      have := List.filter_eq_nil_iff.mp hnil b hb
      apply this
      unfold guestConflictPred
      simp [hroom, hst, h1, h2]

/-- C6 counterexample: `bookingCancelled13` is in the terminal state
CANCELLED, yet `update_booking` moves it back to CONFIRMED. -/
theorem C6_counterexample :
    bookingCancelled13.status = BookingStatus.CANCELLED
      ∧ update_booking dbCancelled13 1
          { check_in := none, check_out := none, status := some BookingStatus.CONFIRMED } alice
        = .ok { dbCancelled13 with
                  bookings := [{ bookingCancelled13 with status := BookingStatus.CONFIRMED }] } := by
  exact ⟨by decide, by decide⟩

/-- C6 (amended): the handlers enforce no terminal states. `update_booking`
accepts any target status among PENDING, CONFIRMED, CANCELLED, COMPLETED
whatever the current status of the booking — including the terminal ones —
and `cancel_booking` moves any authorized booking to CANCELLED whatever its
current status. -/
theorem C6_terminal_not_enforced :
    (∀ (db : DB) (booking_id : Nat) (booking : Booking) (current : User) (s : BookingStatus),
      db.bookings.find? (fun b => b.id == booking_id) = some booking →
      mayTouchBooking booking current = true →
      allowedUpdateStatus s = true →
        update_booking db booking_id
            { check_in := none, check_out := none, status := some s } current
          = .ok (replaceBooking db booking_id { booking with status := s }))
    ∧ (∀ (db : DB) (booking_id : Nat) (booking : Booking) (current : User),
      db.bookings.find? (fun b => b.id == booking_id) = some booking →
      mayTouchBooking booking current = true →
        cancel_booking db booking_id current
          = .ok (replaceBooking db booking_id
              { booking with status := BookingStatus.CANCELLED })) := by
  constructor
  · intro db booking_id booking current s hfind hauth hs
    unfold update_booking
    rw [hfind]
    simp [hauth, hs]
  · intro db booking_id booking current hfind hauth
    unfold cancel_booking
    rw [hfind]
    simp [hauth]

/-- C6 witness: the amended theorem applied to the CANCELLED booking of
`dbCancelled13`, moved back to CONFIRMED, and then cancelled again. -/
theorem C6_witness :
    update_booking dbCancelled13 1
        { check_in := none, check_out := none, status := some BookingStatus.CONFIRMED } alice
      = .ok (replaceBooking dbCancelled13 1
          { bookingCancelled13 with status := BookingStatus.CONFIRMED })
    ∧ cancel_booking dbCancelled13 1 alice
      = .ok (replaceBooking dbCancelled13 1
          { bookingCancelled13 with status := BookingStatus.CANCELLED }) :=
  ⟨C6_terminal_not_enforced.1 dbCancelled13 1 bookingCancelled13 alice
      BookingStatus.CONFIRMED (by decide) (by decide) (by decide),
    C6_terminal_not_enforced.2 dbCancelled13 1 bookingCancelled13 alice
      (by decide) (by decide)⟩

/-- C7 counterexample: on the empty state, a quote request with
check-out before check-in fails with NotFound for the property — the
entity lookups run before date validation, so the rejection is not
InvalidDateRange and is not independent of the database. -/
theorem C7_counterexample :
    quote_availability dbEmpty reqBadDates = .error .PropertyNotFound
      ∧ QuoteError.PropertyNotFound ≠ QuoteError.InvalidDateRange := by
  exact ⟨by decide, by decide⟩

/-- C7 (amended): only guest booking creation validates dates before any
database access — for an inverted or past date range it returns
InvalidDateRange identically on every state; `quote_availability` performs
the property lookup first, so with a missing property it returns
PropertyNotFound whatever the dates. -/
theorem C7_validation_order :
    (∀ (db : DB) (today : Nat) (req : GuestBookingRequest) (new_id : Nat),
        req.check_out ≤ req.check_in ∨ req.check_in < today →
          create_guest_booking db today req new_id = .error .InvalidDateRange)
    ∧ (∀ (db : DB) (payload : QuoteRequest),
        db.properties.find? (fun p => p.id == payload.property_id) = none →
          quote_availability db payload = .error .PropertyNotFound) := by
  constructor
  · intro db today req new_id h
    unfold create_guest_booking
    by_cases h0 : req.check_in ≥ req.check_out
    · rw [if_pos h0]
    · rw [if_neg h0, if_pos (by omega : req.check_in < today)]
  · intro db payload h
    unfold quote_availability
    rw [h]

/-- C7 witness: guest creation rejects inverted dates on the empty state;
the quote on the empty state takes the NotFound path. -/
theorem C7_witness :
    create_guest_booking dbEmpty 0
        { room_id := 5, check_in := 12, check_out := 10, guests := 1 } 1
      = .error .InvalidDateRange
    ∧ quote_availability dbEmpty reqNight10 = .error .PropertyNotFound :=
  ⟨C7_validation_order.1 dbEmpty 0
      { room_id := 5, check_in := 12, check_out := 10, guests := 1 } 1 (by decide),
    C7_validation_order.2 dbEmpty reqNight10 (by decide)⟩

/-- C3: for every request passing referential and date validation whose
availability check succeeds, the quoted total price is the sum over every
date of `[check_in, check_out)` of the nightly price — the daily override
for exactly that rate plan and date if one exists, else the base price —
times the room count; the night of check-out is never charged, as the
range excludes it by construction. -/
theorem C3_pricing (db : DB) (payload : QuoteRequest)
    (prop : Property) (room_type : RoomType) (rate_plan : RatePlan)
    (hp : db.properties.find? (fun p => p.id == payload.property_id) = some prop)
    (hpa : prop.is_active = true)
    (hrt : db.room_types.find? (fun rt => rt.id == payload.room_type_id) = some room_type)
    (hrtp : room_type.property_id = payload.property_id)
    (hrta : room_type.is_active = true)
    (hrp : db.rate_plans.find? (fun rp => rp.id == payload.rate_plan_id) = some rate_plan)
    (hrpp : rate_plan.property_id = payload.property_id)
    (hrpr : rate_plan.room_type_id = payload.room_type_id)
    (hdate : payload.check_in < payload.check_out)
    (hav : ¬ availableRooms db payload.room_type_id payload.check_in payload.check_out
        < payload.num_rooms) :
    quote_availability db payload =
      .ok { available := true
            remaining_rooms :=
              availableRooms db payload.room_type_id payload.check_in payload.check_out
                - payload.num_rooms
            total_price :=
              ((dateRange payload.check_in payload.check_out).map
                (fun day => priceForNight db payload.rate_plan_id rate_plan.base_price day
                  * (payload.num_rooms : Rat))).sum
            currency := rate_plan.currency } := by
  have hle : ¬ payload.check_out ≤ payload.check_in := by omega
  unfold quote_availability
  simp only [hp, hrt, hrp]
  simp [hpa, hrtp, hrta, hrpp, hrpr, hle, hav]
  rw [quoteTotalPrice_eq_specTotalPrice]
  rfl

/-- C3 witness: Scenario B — base price 100, override 150 on night 25, one
room for nights 24 and 25: the total is 250. -/
theorem C3_witness :
    quote_availability dbOverride25 reqNights24and25
      = .ok { available := true, remaining_rooms := 1, total_price := 250,
              currency := "VND" } := by
  rw [C3_pricing dbOverride25 reqNights24and25 prop1 roomType1 ratePlan1
    (by decide) (by decide) (by decide) (by decide) (by decide)
    (by decide) (by decide) (by decide) (by decide) (by decide)]
  norm_num [dateRange, priceForNight, findDailyPrice, availableRooms, minAvailLoop,
    findInventory, updMin, dbOverride25, reqNights24and25, ratePlan1, List.range_succ]

/-- C9 counterexample: with total 1 and booked 2 on the only night, the
quote returns `remaining_rooms = -1` — a negative count is exposed to the
caller instead of being clamped to 0. -/
theorem C9_counterexample :
    quote_availability dbOverbooked reqNight10
        = .ok { available := false, remaining_rooms := -1, total_price := 0,
                currency := "VND" }
      ∧ (-1 : Int) < 0 := by
  exact ⟨by decide, by decide⟩

/-- C9 (amended): the engine performs no clamping. For a one-night stay on
an open inventory row with `booked_rooms > total_rooms` (and a non-negative
room count requested) the quote returns the negative difference
`total_rooms - booked_rooms` as `remaining_rooms`. -/
theorem C9_negative_exposed (db : DB) (payload : QuoteRequest)
    (prop : Property) (room_type : RoomType) (rate_plan : RatePlan) (inv : Inventory)
    (hp : db.properties.find? (fun p => p.id == payload.property_id) = some prop)
    (hpa : prop.is_active = true)
    (hrt : db.room_types.find? (fun rt => rt.id == payload.room_type_id) = some room_type)
    (hrtp : room_type.property_id = payload.property_id)
    (hrta : room_type.is_active = true)
    (hrp : db.rate_plans.find? (fun rp => rp.id == payload.rate_plan_id) = some rate_plan)
    (hrpp : rate_plan.property_id = payload.property_id)
    (hrpr : rate_plan.room_type_id = payload.room_type_id)
    (hdate : payload.check_out = payload.check_in + 1)
    (hfind : findInventory db payload.room_type_id payload.check_in = some inv)
    (hopen : inv.closed_for_sale = false)
    (hover : inv.total_rooms < inv.booked_rooms)
    (hnum : 0 ≤ payload.num_rooms) :
    quote_availability db payload
        = .ok { available := false
                remaining_rooms := (inv.total_rooms : Int) - (inv.booked_rooms : Int)
                total_price := 0
                currency := rate_plan.currency }
      ∧ (inv.total_rooms : Int) - (inv.booked_rooms : Int) < 0 := by
  have hneg : (inv.total_rooms : Int) - (inv.booked_rooms : Int) < 0 := by
    omega
  have hone : dateRange payload.check_in payload.check_out = [payload.check_in] := by
    rw [hdate]
    simp [dateRange, List.range_succ]
  have hm : availableRooms db payload.room_type_id payload.check_in payload.check_out
      = (inv.total_rooms : Int) - (inv.booked_rooms : Int) := by
    unfold availableRooms
    rw [hone]
    simp [minAvailLoop, hfind, hopen, updMin]
  have hle : ¬ payload.check_out ≤ payload.check_in := by omega
  refine ⟨?_, hneg⟩
  unfold quote_availability
  simp only [hp, hrt, hrp]
  simp [hpa, hrtp, hrta, hrpp, hrpr, hle]
  rw [hm]
  rw [if_pos (by omega)]

/-- C9 witness: the amended theorem applied to `dbOverbooked` (total 1,
booked 2 on night 10). -/
theorem C9_witness :
    quote_availability dbOverbooked reqNight10
        = .ok { available := false, remaining_rooms := (1 : Int) - (2 : Int),
                total_price := 0, currency := "VND" }
      ∧ ((1 : Nat) : Int) - ((2 : Nat) : Int) < 0 :=
  C9_negative_exposed dbOverbooked reqNight10 prop1 roomType1 ratePlan1
    { room_type_id := 2, date := 10, total_rooms := 1, booked_rooms := 2,
      closed_for_sale := false }
    (by decide) (by decide) (by decide) (by decide) (by decide)
    (by decide) (by decide) (by decide) (by decide) (by decide)
    (by decide) (by decide) (by decide)

/-- Evaluation of the concrete creation of `bookingCreated` on `dbLastRoom`:
helper for the counterexamples and witnesses below (the price arithmetic of
`compute_total` is not kernel-reducible, so the run is evaluated by rewriting). -/
theorem create_dbLastRoom_eq :
    create_booking dbLastRoom alice payloadRoom5Night10 1
      = .ok (dbAfterCreate, bookingCreated) := by
  have htot : compute_total room5 payloadRoom5Night10.check_in payloadRoom5Night10.check_out
      = some 100 := by
    unfold compute_total nights_between
    norm_num [room5, payloadRoom5Night10]
  have hfind : dbLastRoom.rooms.find? (fun r => r.id == payloadRoom5Night10.room_id)
      = some room5 := by decide
  unfold create_booking
  simp only [hfind]
  rw [if_neg (by decide)]
  rw [if_neg (by decide)]
  rw [htot]
  rfl

/-- C2 counterexample: a successful `create_booking` of the last room for
night 10 leaves `booked_rooms = 0` (the claim demands an increment to 1),
and the subsequent cancellation also leaves the inventory untouched. -/
theorem C2_counterexample :
    create_booking dbLastRoom alice payloadRoom5Night10 1 = .ok (dbAfterCreate, bookingCreated)
      ∧ dbAfterCreate.inventories
        = [{ room_type_id := 2, date := 10, total_rooms := 1, booked_rooms := 0,
             closed_for_sale := false }]
      ∧ cancel_booking dbAfterCreate 1 alice = .ok dbAfterCancel
      ∧ dbAfterCancel.inventories
        = [{ room_type_id := 2, date := 10, total_rooms := 1, booked_rooms := 0,
             closed_for_sale := false }] := by
  exact ⟨create_dbLastRoom_eq, by decide, by decide, by decide⟩

/-- C2 (amended): neither booking creation nor cancellation reads or writes
the inventories table — on any successful run the inventories of the
resulting state are exactly those of the input state, so
`InventoryDay.booked_rooms` never tracks the bookings. -/
theorem C2_no_inventory_writes :
    (∀ (db : DB) (current : User) (payload : BookingCreatePayload) (new_id : Nat)
        (db' : DB) (bk : Booking),
      create_booking db current payload new_id = .ok (db', bk) →
        db'.inventories = db.inventories)
    ∧ (∀ (db : DB) (booking_id : Nat) (current : User) (db' : DB),
      cancel_booking db booking_id current = .ok db' →
        db'.inventories = db.inventories) := by
  constructor
  · intro db current payload new_id db' bk h
    unfold create_booking at h
    cases hr : db.rooms.find? (fun r => r.id == payload.room_id) with
    | none => simp only [hr] at h; cases h
    | some room =>
      simp only [hr] at h
      by_cases hact : (!room.is_active) = true
      · rw [if_pos hact] at h; cases h
      · rw [if_neg hact] at h
        by_cases hav : (!room_available db room.id payload.check_in payload.check_out) = true
        · rw [if_pos hav] at h; cases h
        · rw [if_neg hav] at h
          cases hct : compute_total room payload.check_in payload.check_out with
          | none => simp only [hct] at h; cases h
          | some total =>
            simp only [hct] at h
            injection h with hpair
            injection hpair with h1 h2
            subst h1
            rfl
  · intro db booking_id current db' h
    unfold cancel_booking at h
    cases hf : db.bookings.find? (fun b => b.id == booking_id) with
    | none => simp only [hf] at h; cases h
    | some booking =>
      simp only [hf] at h
      by_cases hauth : (!mayTouchBooking booking current) = true
      · rw [if_pos hauth] at h; cases h
      · rw [if_neg hauth] at h
        injection h with h1
        subst h1
        rfl

/-- C2 witness: the amended theorem applied to the concrete successful
creation and cancellation on `dbLastRoom`. -/
theorem C2_witness :
    dbAfterCreate.inventories = dbLastRoom.inventories
      ∧ dbAfterCancel.inventories = dbAfterCreate.inventories :=
  ⟨C2_no_inventory_writes.1 dbLastRoom alice payloadRoom5Night10 1
      dbAfterCreate bookingCreated create_dbLastRoom_eq,
    C2_no_inventory_writes.2 dbAfterCreate 1 alice dbAfterCancel (by decide)⟩

/-- C8 counterexample: two commit attempts for the last room (total 1,
booked 0 on night 10). The first succeeds, the second is rejected, but the
final `booked_rooms` is 0, not `total_rooms = 1` as the claim demands. -/
theorem C8_counterexample :
    create_booking dbLastRoom alice payloadRoom5Night10 1 = .ok (dbAfterCreate, bookingCreated)
      ∧ create_booking dbAfterCreate bob payloadRoom5Night10 2 = .error .BadRequest
      ∧ dbAfterCreate.inventories
        = [{ room_type_id := 2, date := 10, total_rooms := 1, booked_rooms := 0,
             closed_for_sale := false }]
      ∧ (0 : Nat) ≠ 1 := by
  exact ⟨create_dbLastRoom_eq, by decide, by decide, by decide⟩

/-- C8 (amended): under sequential execution, of two commit attempts for
the same room with overlapping (even merely adjacent) ranges, if the first
succeeds the second is rejected with a 400 error — exclusion comes from the
room-pinned overlap check, not from inventory: `create_booking` never
touches the inventories table, so the final `booked_rooms` equals the
initial one, not the number of committed holds, and no
InsufficientInventory or ConcurrencyConflict outcome exists. -/
theorem C8_sequential_commits (db : DB) (u1 u2 : User)
    (p1 p2 : BookingCreatePayload) (id1 id2 : Nat) (db1 : DB) (bk : Booking)
    (hroom : p2.room_id = p1.room_id)
    (hoverlap1 : p1.check_in ≤ p2.check_out)
    (hoverlap2 : p2.check_in ≤ p1.check_out)
    (h1 : create_booking db u1 p1 id1 = .ok (db1, bk)) :
    create_booking db1 u2 p2 id2 = .error .BadRequest
      ∧ db1.inventories = db.inventories := by
  unfold create_booking at h1
  cases hr : db.rooms.find? (fun r => r.id == p1.room_id) with
  | none => simp only [hr] at h1; cases h1
  | some room =>
    simp only [hr] at h1
    by_cases hact : (!room.is_active) = true
    · rw [if_pos hact] at h1; cases h1
    · rw [if_neg hact] at h1
      by_cases hav : (!room_available db room.id p1.check_in p1.check_out) = true
      · rw [if_pos hav] at h1; cases h1
      · rw [if_neg hav] at h1
        cases hct : compute_total room p1.check_in p1.check_out with
        | none => simp only [hct] at h1; cases h1
        | some total =>
          simp only [hct] at h1
          injection h1 with hpair
          injection hpair with hdb hbk
          rw [hbk] at hdb
          have hbkroom : bk.room_id = room.id := by rw [← hbk]
          have hbkst : bk.status = BookingStatus.CONFIRMED := by rw [← hbk]
          have hbkin : bk.check_in = p1.check_in := by rw [← hbk]
          have hbkout : bk.check_out = p1.check_out := by rw [← hbk]
          subst hdb
          refine ⟨?_, rfl⟩
          have hactive : room.is_active = true := by simpa using hact
          have hbusy : room_available { db with bookings := db.bookings ++ [bk] }
              room.id p2.check_in p2.check_out = false := by
            unfold room_available
            cases hfind : ({ db with bookings := db.bookings ++ [bk] } : DB).bookings.find?
                (fun x => x.room_id == room.id
                  && (x.status == BookingStatus.CONFIRMED
                      || x.status == BookingStatus.COMPLETED)
                  && decide (x.check_in ≤ p2.check_out)
                  && decide (x.check_out ≥ p2.check_in)) with
            | none =>
              exfalso
              have hm : bk ∈ ({ db with bookings := db.bookings ++ [bk] } : DB).bookings := by
                simp
              have hnone := List.find?_eq_none.mp hfind bk hm
              apply hnone
              simp [hbkroom, hbkst, hbkin, hbkout, hoverlap1, hoverlap2]
            | some c => rfl
          unfold create_booking
          have hrooms : ({ db with bookings := db.bookings ++ [bk] } : DB).rooms
              = db.rooms := rfl
          rw [hroom]
          simp only [hrooms, hr]
          simp [hactive, hbusy]

/-- C8 witness: the amended theorem applied to the two sequential attempts
for room 5, night 10, on `dbLastRoom`. -/
theorem C8_witness :
    create_booking dbAfterCreate bob payloadRoom5Night10 2 = .error .BadRequest
      ∧ dbAfterCreate.inventories = dbLastRoom.inventories :=
  C8_sequential_commits dbLastRoom alice bob payloadRoom5Night10 payloadRoom5Night10
    1 2 dbAfterCreate bookingCreated (by decide) (by decide) (by decide)
    create_dbLastRoom_eq

/-- The availability loop reads the state only through its inventories. -/
theorem minAvailLoop_congr (db1 db2 : DB) (hinv : db1.inventories = db2.inventories)
    (rt : Nat) (l : List Nat) (acc : Option Int) :
    minAvailLoop db1 rt l acc = minAvailLoop db2 rt l acc := by
  induction l generalizing acc with
  | nil => rfl
  | cons d rest ih =>
    have hfi : findInventory db1 rt d = findInventory db2 rt d := by
      unfold findInventory
      rw [hinv]
    cases hfind2 : findInventory db2 rt d with
    | none =>
      simp only [minAvailLoop, hfi, hfind2]
      exact ih _
    | some inv =>
      by_cases hc : inv.closed_for_sale = true
      · simp only [minAvailLoop, hfi, hfind2, if_pos hc]
      · simp only [minAvailLoop, hfi, hfind2, if_neg hc]
        exact ih _

/-- The available-rooms minimum reads the state only through its inventories. -/
theorem availableRooms_congr (db1 db2 : DB) (hinv : db1.inventories = db2.inventories)
    (rt check_in check_out : Nat) :
    availableRooms db1 rt check_in check_out = availableRooms db2 rt check_in check_out := by
  unfold availableRooms
  rw [minAvailLoop_congr db1 db2 hinv]

/-- The pricing loop reads the state only through its daily prices. -/
theorem quoteTotalPrice_congr (db1 db2 : DB) (hdp : db1.daily_prices = db2.daily_prices)
    (rate_plan_id : Nat) (base_price : Rat) (dates : List Nat) (num_rooms : Int) :
    quoteTotalPrice db1 rate_plan_id base_price dates num_rooms
      = quoteTotalPrice db2 rate_plan_id base_price dates num_rooms := by
  unfold quoteTotalPrice
  congr 1
  funext acc day
  unfold priceForNight findDailyPrice
  rw [hdp]

/-- Lookup by id returns agreeing plans from pointwise-agreeing tables. -/
theorem find?_agrees (x : Nat) (l1 l2 : List RatePlan)
    (h : List.Forall₂ rpAgreesOutsideStay l1 l2) :
    (l1.find? (fun rp => rp.id == x) = none ∧ l2.find? (fun rp => rp.id == x) = none)
      ∨ ∃ a b, rpAgreesOutsideStay a b
          ∧ l1.find? (fun rp => rp.id == x) = some a
          ∧ l2.find? (fun rp => rp.id == x) = some b := by
  induction h with
  | nil => exact Or.inl ⟨rfl, rfl⟩
  | cons hab htail ih =>
    rename_i a b l1' l2'
    by_cases hx : (a.id == x) = true
    · have hbx : (b.id == x) = true := by
        rw [← hab.1]
        exact hx
      refine Or.inr ⟨a, b, hab, ?_, ?_⟩
      · simp [List.find?, hx]
      · simp [List.find?, hbx]
    · have hx2 : (a.id == x) = false := by simpa using hx
      have hbx2 : (b.id == x) = false := by
        rw [← hab.1]
        exact hx2
      have e1 : (a :: l1').find? (fun rp => rp.id == x)
          = l1'.find? (fun rp => rp.id == x) := by
        simp [List.find?, hx2]
      have e2 : (b :: l2').find? (fun rp => rp.id == x)
          = l2'.find? (fun rp => rp.id == x) := by
        simp [List.find?, hbx2]
      rw [e1, e2]
      exact ih

/-- C10: the quote ignores the stay-length and advance-booking constraint
fields of the rate plans. Two states identical except for those fields of
their rate plans produce the identical quote response for every request —
so a quote can report availability even for a stay violating the declared
minimum or maximum stay. -/
theorem C10_stay_constraints_ignored (P : List Property) (RT : List RoomType)
    (L1 L2 : List RatePlan) (DP : List DailyPrice) (INV : List Inventory)
    (R : List Room) (B : List Booking) (payload : QuoteRequest)
    (h : List.Forall₂ rpAgreesOutsideStay L1 L2) :
    quote_availability ⟨P, RT, L1, DP, INV, R, B⟩ payload
      = quote_availability ⟨P, RT, L2, DP, INV, R, B⟩ payload := by
  unfold quote_availability
  dsimp only
  cases hp : P.find? (fun p => p.id == payload.property_id) with
  | none => rfl
  | some prop =>
    simp only [hp]
    by_cases hpa : (!prop.is_active) = true
    · rw [if_pos hpa, if_pos hpa]
    · rw [if_neg hpa, if_neg hpa]
      cases hrt : RT.find? (fun rt => rt.id == payload.room_type_id) with
      | none => rfl
      | some room_type =>
        simp only [hrt]
        by_cases hc1 : (room_type.property_id != payload.property_id
            || !room_type.is_active) = true
        · rw [if_pos hc1, if_pos hc1]
        · rw [if_neg hc1, if_neg hc1]
          rcases find?_agrees payload.rate_plan_id L1 L2 h with ⟨hn1, hn2⟩ | ⟨a, b, hab, hf1, hf2⟩
          · simp only [hn1, hn2]
          · simp only [hf1, hf2]
            obtain ⟨hid, hprop2, hrtid, hbase, hcur, href⟩ := hab
            rw [hprop2, hrtid, hbase, hcur]
            by_cases hc2 : (b.property_id != payload.property_id
                || b.room_type_id != payload.room_type_id) = true
            · rw [if_pos hc2, if_pos hc2]
            · rw [if_neg hc2, if_neg hc2]
              by_cases hd : payload.check_out ≤ payload.check_in
              · rw [if_pos hd, if_pos hd]
              · rw [if_neg hd, if_neg hd]
                rw [availableRooms_congr ⟨P, RT, L1, DP, INV, R, B⟩ ⟨P, RT, L2, DP, INV, R, B⟩ rfl]
                rw [quoteTotalPrice_congr ⟨P, RT, L1, DP, INV, R, B⟩ ⟨P, RT, L2, DP, INV, R, B⟩ rfl]

/-- C10 witness: the theorem applied to a state whose only rate plan has all
four stay-constraint fields altered to 99. -/
theorem C10_witness :
    quote_availability
        { properties := [prop1], room_types := [roomType1], rate_plans := [ratePlan1],
          daily_prices := [], inventories := [], rooms := [], bookings := [] }
        reqNight10
      = quote_availability
        { properties := [prop1], room_types := [roomType1], rate_plans := [ratePlan1Stay99],
          daily_prices := [], inventories := [], rooms := [], bookings := [] }
        reqNight10 :=
  C10_stay_constraints_ignored [prop1] [roomType1] [ratePlan1] [ratePlan1Stay99]
    [] [] [] [] reqNight10
    (List.Forall₂.cons ⟨rfl, rfl, rfl, rfl, rfl, rfl⟩ List.Forall₂.nil)

end Hotel
